import Mathlib

/-!
Shallow embedding of the trace-driven benchmark replayer of Y77CH/seaweed-dec
(src/bench/run_bench.py and src/bench/run_test.py), with theorems settling the
frozen claims about the trace reader, replay scheduler, operation executor,
payload stager and patterned-content generator.

Conventions of the embedding:
* Python strings are Lean `String`; byte buffers are `List Nat` (byte values).
* Python `float` wall-clock times are modelled as `ℚ` (exact arithmetic over
  the rationals; the claims are about sign/clamping identities that hold in ℚ).
* Python `dict` is an association list `List (String × β)` with
  insert-or-replace (`dictInsert`), deletion (`dictErase`) and lookup
  (`dictLookup`); key uniqueness is a proved invariant, not an assumption.
* The network is passed in as explicit response data; each executor returns,
  besides its state, the list of HTTP requests it issued and the log records it
  emitted, so "no network call" and "reports failure" are statable.
* A Python statement that can raise an uncaught exception is modelled with
  `Except String`; `Except.error` is the uncaught exception aborting the
  surrounding loop, mirroring the absence of a try/except in the source.
-/

/-! ### Python primitives used by the scripts -/

/-- Python `str.strip()`: remove leading and trailing whitespace. -/
def pyStrip (s : String) : String :=
  String.mk (((s.toList.dropWhile Char.isWhitespace).reverse.dropWhile
    Char.isWhitespace).reverse)

/-- Accumulator pass for `pySplit`: `acc` holds the current field reversed. -/
def splitFieldsAux : List Char → List Char → List String
  | [], acc => if acc.isEmpty then [] else [String.mk acc.reverse]
  | c :: cs, acc =>
      if c.isWhitespace then
        if acc.isEmpty then splitFieldsAux cs []
        else String.mk acc.reverse :: splitFieldsAux cs []
      else splitFieldsAux cs (c :: acc)

/-- Python `str.split()` with no separator: split on runs of whitespace,
dropping empty fields. -/
def pySplit (s : String) : List String := splitFieldsAux s.toList []

/-- Characters `'0'`-`'9'` to digit value. -/
def digitVal (c : Char) : Nat := c.toNat - 48

/-- Value of a string of decimal digits. -/
def digitsVal (l : List Char) : Nat :=
  l.foldl (fun acc c => acc * 10 + digitVal c) 0

/-- Python `int(s)` on a whitespace-free field: optional sign followed by at
least one decimal digit parses to an integer, anything else raises
`ValueError` (modelled as `none`). -/
def pyInt (s : String) : Option Int :=
  match s.toList with
  | [] => none
  | '-' :: rest =>
      if rest ≠ [] ∧ rest.all Char.isDigit then some (-(digitsVal rest : Int))
      else none
  | '+' :: rest =>
      if rest ≠ [] ∧ rest.all Char.isDigit then some (digitsVal rest : Int)
      else none
  | l =>
      if l.all Char.isDigit then some (digitsVal l : Int) else none

/-- Effective index of a Python slice bound `i` for a sequence of length `n`:
negative indices count from the end, then the result is clamped to `[0, n]`. -/
def pySliceIdx (n : Nat) (i : Int) : Nat :=
  if i < 0 then ((i + n).toNat) else min i.toNat n

/-- Python slice `l[i:j]`. -/
def pySlice {α : Type} (l : List α) (i j : Int) : List α :=
  (l.take (pySliceIdx l.length j)).drop (pySliceIdx l.length i)

/-- Python `str(n).zfill (w)` for a natural number `n`: left-pad the decimal
representation with `'0'` up to width `w` (never truncates). -/
def pyZfillNat (n w : Nat) : String :=
  let s := toString n
  if s.length ≥ w then s
  else String.mk (List.replicate (w - s.length) '0' ++ s.toList)

/-! ### Python dict as an association list -/

/-- `d[k]` lookup returning `none` when the key is absent. -/
def dictLookup {β : Type} (k : String) (d : List (String × β)) : Option β :=
  match d with
  | [] => none
  | (k', v) :: rest => if k' = k then some v else dictLookup k rest

/-- `d[k] = v`: insert-or-replace, keeping one entry per key. -/
def dictInsert {β : Type} (k : String) (v : β) (d : List (String × β)) :
    List (String × β) :=
  (k, v) :: d.filter (fun p => p.1 ≠ k)

/-- `del d[k]`. -/
def dictErase {β : Type} (k : String) (d : List (String × β)) :
    List (String × β) :=
  d.filter (fun p => p.1 ≠ k)

/-- The keys of a dict. -/
def dictKeys {β : Type} (d : List (String × β)) : List String := d.map Prod.fst

theorem dictLookup_insert {β : Type} (k : String) (v : β)
    (d : List (String × β)) : dictLookup k (dictInsert k v d) = some v := by
  simp [dictInsert, dictLookup]

theorem dictLookup_filter_ne {β : Type} (k k' : String) (h : k ≠ k')
    (d : List (String × β)) :
    dictLookup k' (d.filter (fun p => p.1 ≠ k)) = dictLookup k' d := by
  induction d with
  | nil => rfl
  | cons p rest ih =>
      cases p with
      | mk a b =>
          by_cases hak : a = k
          · have hak' : ¬a = k' := by rw [hak]; exact h
            rw [List.filter_cons_of_neg (by simp [hak])]
            rw [ih]
            simp [dictLookup, hak']
          · rw [List.filter_cons_of_pos (by simp [hak])]
            by_cases hak' : a = k'
            · simp [dictLookup, hak']
            · simp only [dictLookup, if_neg hak']
              simpa using ih

theorem dictLookup_insert_ne {β : Type} (k k' : String) (v : β)
    (d : List (String × β)) (h : k ≠ k') :
    dictLookup k' (dictInsert k v d) = dictLookup k' d := by
  have hk : ¬k = k' := h
  simp only [dictInsert, dictLookup, if_neg hk]
  exact dictLookup_filter_ne k k' h d

theorem dictLookup_erase {β : Type} (k : String) (d : List (String × β)) :
    dictLookup k (dictErase k d) = none := by
  induction d with
  | nil => rfl
  | cons p rest ih =>
      cases p with
      | mk a b =>
          by_cases hak : a = k
          · simpa [dictErase, List.filter_cons, hak] using ih
          · simpa [dictErase, List.filter_cons, hak, dictLookup] using ih

theorem dictLookup_erase_ne {β : Type} (k k' : String) (h : k ≠ k')
    (d : List (String × β)) :
    dictLookup k' (dictErase k d) = dictLookup k' d :=
  dictLookup_filter_ne k k' h d

theorem dictKeys_insert_nodup {β : Type} (k : String) (v : β)
    (d : List (String × β)) (h : (dictKeys d).Nodup) :
    (dictKeys (dictInsert k v d)).Nodup := by
  simp only [dictInsert, dictKeys, List.map_cons, List.nodup_cons]
  constructor
  · intro hmem
    rcases List.mem_map.mp hmem with ⟨p, hp, hpk⟩
    have := List.of_mem_filter hp
    simp [hpk] at this
  · have : (d.filter (fun p => p.1 ≠ k)).map Prod.fst
        |>.Sublist (d.map Prod.fst) :=
      List.Sublist.map Prod.fst (List.filter_sublist d)
    exact List.Nodup.sublist this h

theorem dictKeys_erase_nodup {β : Type} (k : String) (d : List (String × β))
    (h : (dictKeys d).Nodup) : (dictKeys (dictErase k d)).Nodup := by
  have : (dictErase k d).map Prod.fst |>.Sublist (d.map Prod.fst) :=
    List.Sublist.map Prod.fst (List.filter_sublist d)
  exact List.Nodup.sublist this h

/-! ### Trace reader and replay scheduler (`execute_trace` of run_bench.py /
run_test.py)

`execute_trace` reads all lines, and for each line: splits it into fields,
skips lines with fewer than 3 fields, parses `int(parts[0])` with **no**
surrounding try/except (a parse failure raises `ValueError` and aborts the
loop), fixes `start_time` on the first parsed record, computes
`target_time = start_time + timestamp_ms` and sleeps
`max(0, (target_time - current_time) / 1000)` seconds, then dispatches the
operation.  The model takes, for each line, the two wall-clock readings the
loop would make (`c1` for the `time.time() * 1000` that fixes `start_time`,
`c2` for the `current_time` reading), and returns the dispatched operations
in dispatch order, each with the computed sleep duration. -/

/-- Decidable equality for `Except`, so that runs of the model on concrete
traces can be checked by `decide`. -/
instance {α β : Type} [DecidableEq α] [DecidableEq β] :
    DecidableEq (Except α β) := fun x y =>
  match x, y with
  | Except.ok a, Except.ok b =>
      if h : a = b then Decidable.isTrue (by rw [h])
      else Decidable.isFalse (by intro hc; cases hc; exact h rfl)
  | Except.ok _, Except.error _ => Decidable.isFalse (by intro hc; cases hc)
  | Except.error _, Except.ok _ => Decidable.isFalse (by intro hc; cases hc)
  | Except.error e, Except.error f =>
      if h : e = f then Decidable.isTrue (by rw [h])
      else Decidable.isFalse (by intro hc; cases hc; exact h rfl)

/-- A dispatched operation of the replay. -/
inductive Dispatch where
  | putOp (oid : String) (size : Int)
  | getRangeOp (oid : String) (rs re : Int)
  | getFullOp (oid : String)
  | delOp (oid : String)
deriving Repr, DecidableEq

/-- `start_time = time.time() * 1000 - timestamp_ms` on the first record,
kept unchanged afterwards. -/
def schedOrigin (start_time : Option ℚ) (c1 ts : ℚ) : ℚ :=
  match start_time with
  | some s => s
  | none => c1 - ts

/-- Python's two-argument `max(a, b)`. -/
def pyMax (a b : ℚ) : ℚ := if b ≤ a then a else b

/-- `wait_time = max(0, (target_time - current_time) / 1000)` where
`target_time = start_time + timestamp_ms`. -/
def schedWait (st ts c2 : ℚ) : ℚ :=
  pyMax 0 ((st + ts - c2) / 1000)

/-- The `for line in lines` loop of `execute_trace`: parsing, origin fixing,
wait computation and dispatch.  `Except.error` models an uncaught Python
exception (`ValueError` from `int()`), which aborts the whole loop. -/
def execTraceLoop :
    List (String × ℚ × ℚ) → Option ℚ → Except String (List (ℚ × Dispatch))
  | [], _ => Except.ok []
  | (line, c1, c2) :: rest, start_time =>
      match pySplit (pyStrip line) with
      | t :: op :: oid :: fs =>
          match pyInt t with
          | none => Except.error "ValueError"
          | some ts =>
              let st := schedOrigin start_time c1 (ts : ℚ)
              let w := schedWait st (ts : ℚ) c2
              if op = "REST.PUT.OBJECT" then
                match fs with
                | sz :: _ =>
                    match pyInt sz with
                    | none => Except.error "ValueError"
                    | some n =>
                        match execTraceLoop rest (some st) with
                        | Except.error e => Except.error e
                        | Except.ok out =>
                            Except.ok ((w, Dispatch.putOp oid n) :: out)
                | [] => execTraceLoop rest (some st)
              else if op = "REST.GET.OBJECT" then
                match fs with
                | _ :: rs :: re :: _ =>
                    match pyInt rs, pyInt re with
                    | some a, some b =>
                        match execTraceLoop rest (some st) with
                        | Except.error e => Except.error e
                        | Except.ok out =>
                            Except.ok ((w, Dispatch.getRangeOp oid a b) :: out)
                    | _, _ => Except.error "ValueError"
                | _ =>
                    match execTraceLoop rest (some st) with
                    | Except.error e => Except.error e
                    | Except.ok out =>
                        Except.ok ((w, Dispatch.getFullOp oid) :: out)
              else if op = "REST.DELETE.OBJECT" then
                match execTraceLoop rest (some st) with
                | Except.error e => Except.error e
                | Except.ok out => Except.ok ((w, Dispatch.delOp oid) :: out)
              else execTraceLoop rest (some st)
      | _ => execTraceLoop rest start_time

/-- The records of the trace, in trace order, as the spec's Trace Reader
describes them (no timing involved): used to state that the scheduler
dispatches in trace order without reordering. -/
def recordsOf : List String → List Dispatch
  | [] => []
  | line :: rest =>
      match pySplit (pyStrip line) with
      | _t :: op :: oid :: fs =>
          if op = "REST.PUT.OBJECT" then
            match fs with
            | sz :: _ =>
                match pyInt sz with
                | some n => Dispatch.putOp oid n :: recordsOf rest
                | none => recordsOf rest
            | [] => recordsOf rest
          else if op = "REST.GET.OBJECT" then
            match fs with
            | _ :: rs :: re :: _ =>
                match pyInt rs, pyInt re with
                | some a, some b => Dispatch.getRangeOp oid a b :: recordsOf rest
                | _, _ => recordsOf rest
            | _ => Dispatch.getFullOp oid :: recordsOf rest
          else if op = "REST.DELETE.OBJECT" then
            Dispatch.delOp oid :: recordsOf rest
          else recordsOf rest
      | _ => recordsOf rest

/-! ### Operation executor of run_bench.py

`put_object`, `get_object`, `delete_object` act on the module-level dicts
`object_mappings : object_id -> (fid, publicUrl)` and
`prepared_files : object_id -> file path`.  The network is passed in as the
response data each `requests.*` call would produce (`NetResult.raised` models
the call raising an exception, caught by the surrounding `except` block).
Each model returns the updated dicts, the HTTP requests issued and the log
records emitted (debug lines are omitted; `logError` stands for a
`logging.error` call, `opLine` for the `logging.info` measurement line
`OP,object_id,bytes,elapsed,throughput`). -/

/-- Outcome of a `requests.*` call: an exception, or a response. -/
inductive NetResult (α : Type) where
  | raised
  | ok (a : α)
deriving Repr, DecidableEq

/-- Body of the `/dir/assign` JSON response: `assign_data.get("publicUrl")`
and `assign_data.get("fid")` (absent keys give `None`). -/
structure AssignData where
  publicUrl : Option String
  fid : Option String
deriving Repr, DecidableEq

/-- Upload response: its status code, and whether `upload_response.json()`
parses (when it does not, `.json()` raises and the `except` block runs). -/
structure UploadResp where
  status : Nat
  jsonParses : Bool
deriving Repr, DecidableEq

/-- Fetch response: status code and body bytes. -/
structure GetResp where
  status : Nat
  body : List Nat
deriving Repr, DecidableEq

/-- Delete response: status code. -/
structure DeleteResp where
  status : Nat
deriving Repr, DecidableEq

/-- An HTTP request issued by the executor. -/
inductive HttpReq where
  | assignReq (url : String)
  | postReq (url : String)
  | getReq (url : String) (headers : List (String × String))
  | deleteReq (url : String)
deriving Repr, DecidableEq

/-- A log record relevant to the claims. -/
inductive LogRec where
  | logError (tag : String)
  | opLine (op : String) (oid : String) (bytes : Nat) (elapsed tp : ℚ)
deriving Repr, DecidableEq

/-- Python truthiness test used by `if not public_url or not fid`. -/
def optFalsy : Option String → Bool
  | none => true
  | some s => s = ""

/-- `throughput = size_bytes / elapsed if elapsed > 0 else 0` (the same
expression appears in `put_object` and `get_object`). -/
def throughputOf (bytes : Nat) (elapsed : ℚ) : ℚ :=
  if 0 < elapsed then (bytes : ℚ) / elapsed else 0

/-- State and observable output of one run_bench executor call. -/
structure BenchResult where
  mappings : List (String × String × String)
  prepared : List (String × String)
  requests : List HttpReq
  logs : List LogRec
deriving Repr, DecidableEq

/-- The `finally` block of `put_object`: remove the pre-created file when it
still exists and drop its `prepared_files` entry. -/
def putCleanup (oid : String) (fileExists : String → Bool) (fp : String)
    (prepared : List (String × String)) : List (String × String) :=
  if fileExists fp then dictErase oid prepared else prepared

/-- run_bench.py `put_object` (lines 68-121).  Note that the upload response
status code is never inspected: the mapping is stored whenever
`upload_response.json()` parses, and the `PUT,...` measurement line is logged
before `.json()` is evaluated. -/
def put_object (masterAddr oid : String) (size : Nat)
    (mappings : List (String × String × String))
    (prepared : List (String × String)) (fileExists : String → Bool)
    (assignResp : NetResult AssignData) (uploadResp : NetResult UploadResp)
    (startT endT : ℚ) : BenchResult :=
  match dictLookup oid prepared with
  | none =>
      ⟨mappings, prepared, [], [LogRec.logError "put-missing-file"]⟩
  | some fp =>
      if ¬fileExists fp then
        ⟨mappings, prepared, [], [LogRec.logError "put-missing-file"]⟩
      else
        let assignUrl := masterAddr ++ "/dir/assign"
        match assignResp with
        | NetResult.raised =>
            ⟨mappings, putCleanup oid fileExists fp prepared,
              [HttpReq.assignReq assignUrl],
              [LogRec.logError "put-exception"]⟩
        | NetResult.ok ad =>
            if optFalsy ad.publicUrl ∨ optFalsy ad.fid then
              ⟨mappings, putCleanup oid fileExists fp prepared,
                [HttpReq.assignReq assignUrl],
                [LogRec.logError "put-missing-assign-fields"]⟩
            else
              let pu := ad.publicUrl.getD ""
              let fid := ad.fid.getD ""
              let uploadUrl := "http://" ++ pu ++ "/" ++ fid
              match uploadResp with
              | NetResult.raised =>
                  ⟨mappings, putCleanup oid fileExists fp prepared,
                    [HttpReq.assignReq assignUrl, HttpReq.postReq uploadUrl],
                    [LogRec.logError "put-exception"]⟩
              | NetResult.ok u =>
                  let elapsed := endT - startT
                  let tp := throughputOf size elapsed
                  let measured := LogRec.opLine "PUT" oid size elapsed tp
                  if u.jsonParses then
                    ⟨dictInsert oid (fid, pu) mappings,
                      putCleanup oid fileExists fp prepared,
                      [HttpReq.assignReq assignUrl, HttpReq.postReq uploadUrl],
                      [measured]⟩
                  else
                    ⟨mappings, putCleanup oid fileExists fp prepared,
                      [HttpReq.assignReq assignUrl, HttpReq.postReq uploadUrl],
                      [measured, LogRec.logError "put-exception"]⟩

/-- Headers of the GET request: a `Range` header exactly when both range
fields are present. -/
def getHeaders (rs re : Option Int) : List (String × String) :=
  match rs, re with
  | some s, some e => [("Range", "bytes=" ++ toString s ++ "-" ++ toString e)]
  | _, _ => []

/-- run_bench.py `get_object` (lines 123-165); it never mutates the dicts, so
only the requests, logs and the saved response file are returned. -/
def get_object (oid : String) (mappings : List (String × String × String))
    (rs re : Option Int) (resp : NetResult GetResp) (startT endT : ℚ) :
    List HttpReq × List LogRec × Option (String × List Nat) :=
  match dictLookup oid mappings with
  | none => ([], [LogRec.logError "get-no-mapping"], none)
  | some (fid, pu) =>
      let url := "http://" ++ pu ++ "/" ++ fid
      let headers := getHeaders rs re
      match resp with
      | NetResult.raised =>
          ([HttpReq.getReq url headers], [LogRec.logError "get-exception"],
            none)
      | NetResult.ok r =>
          if r.status = 200 ∨ r.status = 206 then
            let len := r.body.length
            let elapsed := endT - startT
            let tp := throughputOf len elapsed
            let path :=
              match rs, re with
              | some s, some e =>
                  "./temp/" ++ oid ++ "_range_" ++ toString s ++ "_"
                    ++ toString e
              | _, _ => "./temp/" ++ oid ++ "_full"
            ([HttpReq.getReq url headers],
              [LogRec.opLine "GET" oid len elapsed tp], some (path, r.body))
          else
            ([HttpReq.getReq url headers],
              [LogRec.logError "get-failed-status"], none)

/-- run_bench.py `delete_object` (lines 167-192): on 200/204 the mapping is
removed; on 202 only a debug line is logged and the mapping is kept; on any
other status an error is logged and the mapping is kept. -/
def delete_object (oid : String)
    (mappings : List (String × String × String))
    (resp : NetResult DeleteResp) :
    List (String × String × String) × List HttpReq × List LogRec :=
  match dictLookup oid mappings with
  | none => (mappings, [], [LogRec.logError "delete-no-mapping"])
  | some (fid, pu) =>
      let url := "http://" ++ pu ++ "/" ++ fid
      match resp with
      | NetResult.raised =>
          (mappings, [HttpReq.deleteReq url],
            [LogRec.logError "delete-exception"])
      | NetResult.ok r =>
          if r.status = 200 ∨ r.status = 204 then
            (dictErase oid mappings, [HttpReq.deleteReq url], [])
          else if r.status = 202 then
            (mappings, [HttpReq.deleteReq url], [])
          else
            (mappings, [HttpReq.deleteReq url],
              [LogRec.logError "delete-failed-status"])

/-! ### Verification-mode executor of run_test.py -/

/-- `base_pattern = b"TESTtest"` (ASCII byte values). -/
def basePattern : List Nat := [84, 69, 83, 84, 116, 101, 115, 116]

/-- `str(i).zfill(8).encode('ascii')` -/
def positionBytes (i : Nat) : List Nat :=
  (pyZfillNat i 8).toList.map Char.toNat

/-- run_test.py `generate_patterned_content` (lines 15-38): `size_bytes // 16`
chunks of 8 position bytes plus the 8-byte base pattern, then
`base_pattern[:remaining_bytes]` for the `size_bytes % 16` leftover bytes. -/
def generate_patterned_content (size_bytes : Nat) : List Nat :=
  let chunk_size := 16
  let num_chunks := size_bytes / chunk_size
  let remaining_bytes := size_bytes % chunk_size
  let chunks :=
    ((List.range num_chunks).map
      (fun i => positionBytes i ++ basePattern)).flatten
  chunks ++ basePattern.take remaining_bytes

/-- run_test.py `verify_content` reduced to its verdict: the received bytes
are compared with the original bytes for equality (the diagnostics it prints
on mismatch do not change the verdict). -/
def verify_content (original received : List Nat) : Bool :=
  original == received

/-- A value of run_test.py's `object_mappings`: fid, public_url, the original
content kept for verification, and the size (the `content_hash` field is a
digest of `content` used only in diagnostics, so it is not carried). -/
structure TestMapping where
  fid : String
  public_url : String
  content : List Nat
  size : Nat
deriving Repr, DecidableEq

/-- Outcome of run_test.py `get_object`. -/
inductive GetOutcomeT where
  | unknownObject
  | raised
  | failedStatus (status : Nat)
  | verifiedFull (ok : Bool)
  | verifiedRange (expected : List Nat) (ok : Bool)
deriving Repr, DecidableEq

/-- run_test.py `put_object` (lines 90-146): generates the patterned content,
asks for an assignment, uploads, and stores the mapping (with the content)
whenever `upload_response.json()` parses — the upload status code is never
inspected.  Returns the updated mapping dict and the requests issued. -/
def put_object_test (masterAddr oid : String) (size : Nat)
    (mappings : List (String × TestMapping))
    (assignResp : NetResult AssignData) (uploadResp : NetResult UploadResp) :
    List (String × TestMapping) × List HttpReq :=
  let content := generate_patterned_content size
  let assignUrl := masterAddr ++ "/dir/assign"
  match assignResp with
  | NetResult.raised => (mappings, [HttpReq.assignReq assignUrl])
  | NetResult.ok ad =>
      if optFalsy ad.publicUrl ∨ optFalsy ad.fid then
        (mappings, [HttpReq.assignReq assignUrl])
      else
        let pu := ad.publicUrl.getD ""
        let fid := ad.fid.getD ""
        let uploadUrl := "http://" ++ pu ++ "/" ++ fid
        match uploadResp with
        | NetResult.raised =>
            (mappings, [HttpReq.assignReq assignUrl, HttpReq.postReq uploadUrl])
        | NetResult.ok u =>
            if u.jsonParses then
              (dictInsert oid ⟨fid, pu, content, size⟩ mappings,
                [HttpReq.assignReq assignUrl, HttpReq.postReq uploadUrl])
            else
              (mappings,
                [HttpReq.assignReq assignUrl, HttpReq.postReq uploadUrl])

/-- run_test.py `get_object` (lines 148-205): on 200/206, for a range request
the received body is verified against
`original_content[range_start:range_end+1]`, otherwise against the whole
original content. -/
def get_object_test (oid : String) (mappings : List (String × TestMapping))
    (rs re : Option Int) (resp : NetResult GetResp) :
    GetOutcomeT × List HttpReq :=
  match dictLookup oid mappings with
  | none => (GetOutcomeT.unknownObject, [])
  | some m =>
      let url := "http://" ++ m.public_url ++ "/" ++ m.fid
      let headers := getHeaders rs re
      match resp with
      | NetResult.raised => (GetOutcomeT.raised, [HttpReq.getReq url headers])
      | NetResult.ok r =>
          if r.status = 200 ∨ r.status = 206 then
            match rs, re with
            | some s, some e =>
                let expected := pySlice m.content s (e + 1)
                (GetOutcomeT.verifiedRange expected
                  (verify_content expected r.body),
                  [HttpReq.getReq url headers])
            | _, _ =>
                (GetOutcomeT.verifiedFull (verify_content m.content r.body),
                  [HttpReq.getReq url headers])
          else (GetOutcomeT.failedStatus r.status, [HttpReq.getReq url headers])

/-- run_test.py `delete_object` (lines 207-235): on 200/204 the mapping is
removed, on any other status it is kept (no special 202 branch in this
variant). -/
def delete_object_test (oid : String)
    (mappings : List (String × TestMapping)) (resp : NetResult DeleteResp) :
    List (String × TestMapping) × List HttpReq × List LogRec :=
  match dictLookup oid mappings with
  | none => (mappings, [], [LogRec.logError "delete-no-mapping"])
  | some m =>
      let url := "http://" ++ m.public_url ++ "/" ++ m.fid
      match resp with
      | NetResult.raised =>
          (mappings, [HttpReq.deleteReq url],
            [LogRec.logError "delete-exception"])
      | NetResult.ok r =>
          if r.status = 200 ∨ r.status = 204 then
            (dictErase oid mappings, [HttpReq.deleteReq url], [])
          else
            (mappings, [HttpReq.deleteReq url],
              [LogRec.logError "delete-failed-status"])

/-! ### Payload stager (`pre_create_put_files` of run_bench.py) -/

/-- The spec's reading of a size-carrying PUT record on a trace line:
at least 4 fields, operation `REST.PUT.OBJECT`, integer size field. -/
def parsePutRecord (line : String) : Option (String × Int) :=
  match pySplit (pyStrip line) with
  | _t :: op :: oid :: sz :: _ =>
      if op = "REST.PUT.OBJECT" then (pyInt sz).map (fun n => (oid, n))
      else none
  | _ => none

/-- The scan loop of run_bench.py `pre_create_put_files` (lines 41-66),
building `put_operations : object_id -> size`: lines with fewer than 3 fields
are skipped, PUT lines with a 4th field have `int(parts[3])` parsed (an
unparseable size raises `ValueError`, aborting the scan), PUT lines without a
size are only logged, and non-PUT lines are ignored.  The timestamp field is
never parsed here.  Each entry then has a random file of that size created
and registered in `prepared_files`, so the dict is the staged-payload map. -/
def preCreateScan :
    List String → List (String × Int) → Except String (List (String × Int))
  | [], acc => Except.ok acc
  | line :: rest, acc =>
      match pySplit (pyStrip line) with
      | _t :: op :: oid :: fs =>
          if op = "REST.PUT.OBJECT" then
            match fs with
            | sz :: _ =>
                match pyInt sz with
                | none => Except.error "ValueError"
                | some n => preCreateScan rest (dictInsert oid n acc)
            | [] => preCreateScan rest acc
          else preCreateScan rest acc
      | _ => preCreateScan rest acc

/-- run_bench.py `pre_create_put_files`, called by `main` before
`execute_trace`: the staged-payload map computed from the trace alone. -/
def pre_create_put_files (lines : List String) :
    Except String (List (String × Int)) :=
  preCreateScan lines []

/-- The size recorded for `oid` by the last size-carrying PUT record of the
trace, if any. -/
def lastPutSize : List String → String → Option Int
  | [], _ => none
  | line :: rest, oid =>
      match lastPutSize rest oid with
      | some n => some n
      | none =>
          match parsePutRecord line with
          | some (oid', n) => if oid' = oid then some n else none
          | none => none

/-! ### Helper lemmas about the executor branches -/

theorem put_object_success_mappings (masterAddr oid : String) (size : Nat)
    (mappings : List (String × String × String))
    (prepared : List (String × String)) (fileExists : String → Bool)
    (pu fid : String) (status : Nat) (jsonOk : Bool) (startT endT : ℚ)
    (fp : String) (hfp : dictLookup oid prepared = some fp)
    (hex : fileExists fp = true) (hpu : pu ≠ "") (hfid : fid ≠ "") :
    (put_object masterAddr oid size mappings prepared fileExists
        (NetResult.ok ⟨some pu, some fid⟩) (NetResult.ok ⟨status, jsonOk⟩)
        startT endT).mappings
      = if jsonOk then dictInsert oid (fid, pu) mappings else mappings := by
  simp [put_object, hfp, hex, optFalsy, hpu, hfid, putCleanup]
  cases jsonOk <;> simp

theorem put_object_mappings_cases (masterAddr oid : String) (size : Nat)
    (mappings : List (String × String × String))
    (prepared : List (String × String)) (fileExists : String → Bool)
    (assignResp : NetResult AssignData) (uploadResp : NetResult UploadResp)
    (startT endT : ℚ) :
    (put_object masterAddr oid size mappings prepared fileExists assignResp
        uploadResp startT endT).mappings = mappings ∨
    ∃ v, (put_object masterAddr oid size mappings prepared fileExists
        assignResp uploadResp startT endT).mappings
      = dictInsert oid v mappings := by
  unfold put_object
  rcases dictLookup oid prepared with _ | fp
  · exact Or.inl rfl
  · dsimp only
    rcases assignResp with _ | ad
    · dsimp only
      split_ifs <;> exact Or.inl rfl
    · dsimp only
      rcases uploadResp with _ | u
      · dsimp only
        split_ifs <;> exact Or.inl rfl
      · rcases u with ⟨status, jsonOk⟩
        cases jsonOk <;> dsimp only <;> split_ifs <;>
          first
            | exact Or.inl rfl
            | exact Or.inr ⟨_, rfl⟩
            | simp_all

theorem delete_object_status_mappings (oid : String)
    (mappings : List (String × String × String)) (fid pu : String)
    (status : Nat) (h : dictLookup oid mappings = some (fid, pu)) :
    (delete_object oid mappings (NetResult.ok ⟨status⟩)).1
      = if status = 200 ∨ status = 204 then dictErase oid mappings
        else mappings := by
  simp [delete_object, h]
  split_ifs <;> simp_all

/-- C3: a GET or DELETE for an object_id with no live Placement in the
mapping returns after a logged diagnostic, issues no HTTP request, leaves the
mapping unchanged, and produces a well-defined result (no uncaught
exception). -/
theorem C3_unknown_object :
    ∀ (oid : String) (mappings : List (String × String × String))
      (rs re : Option Int) (gresp : NetResult GetResp)
      (dresp : NetResult DeleteResp) (t1 t2 : ℚ),
      dictLookup oid mappings = none →
      get_object oid mappings rs re gresp t1 t2
          = ([], [LogRec.logError "get-no-mapping"], none) ∧
      delete_object oid mappings dresp
          = (mappings, [], [LogRec.logError "delete-no-mapping"]) := by
  intro oid mappings rs re gresp dresp t1 t2 h
  constructor
  · simp [get_object, h]
  · simp [delete_object, h]

/-- Witness for C3 at a concrete input: object `ghost` against an empty
mapping. -/
theorem C3_unknown_object_witness :
    get_object "ghost" [] none none NetResult.raised 0 0
        = ([], [LogRec.logError "get-no-mapping"], none) ∧
    delete_object "ghost" [] NetResult.raised
        = ([], [], [LogRec.logError "delete-no-mapping"]) :=
  C3_unknown_object "ghost" [] none none NetResult.raised NetResult.raised
    0 0 (by decide)

/-- C4: with a live Placement, DELETE removes it from the mapping exactly
when the response status is 200 or 204 (any other status, 202 included,
leaves the mapping unchanged; so does a transport exception); and after a
successful PUT followed by a DELETE answered 200, a GET for that object_id
gives the unknown-object failure. -/
theorem C4_delete_mapping :
    (∀ (oid : String) (mappings : List (String × String × String))
      (fid pu : String) (status : Nat),
      dictLookup oid mappings = some (fid, pu) →
      (delete_object oid mappings (NetResult.ok ⟨status⟩)).1
        = if status = 200 ∨ status = 204 then dictErase oid mappings
          else mappings) ∧
    (∀ (oid : String) (mappings : List (String × String × String)),
      (delete_object oid mappings NetResult.raised).1 = mappings) ∧
    (∀ (masterAddr oid : String) (size : Nat)
      (mappings : List (String × String × String))
      (prepared : List (String × String)) (fileExists : String → Bool)
      (pu fid fp : String) (startT endT : ℚ) (rs re : Option Int)
      (gresp : NetResult GetResp) (t1 t2 : ℚ),
      dictLookup oid prepared = some fp → fileExists fp = true →
      pu ≠ "" → fid ≠ "" →
      get_object oid
          (delete_object oid
            (put_object masterAddr oid size mappings prepared fileExists
              (NetResult.ok ⟨some pu, some fid⟩) (NetResult.ok ⟨201, true⟩)
              startT endT).mappings
            (NetResult.ok ⟨200⟩)).1
          rs re gresp t1 t2
        = ([], [LogRec.logError "get-no-mapping"], none)) := by
  refine ⟨?_, ?_, ?_⟩
  · intro oid mappings fid pu status h
    exact delete_object_status_mappings oid mappings fid pu status h
  · intro oid mappings
    cases h : dictLookup oid mappings <;> simp [delete_object, h]
  · intro masterAddr oid size mappings prepared fileExists pu fid fp
      startT endT rs re gresp t1 t2 hfp hex hpu hfid
    rw [put_object_success_mappings masterAddr oid size mappings prepared
      fileExists pu fid 201 true startT endT fp hfp hex hpu hfid]
    simp only [if_true]
    have h2 : (delete_object oid (dictInsert oid (fid, pu) mappings)
        (NetResult.ok ⟨200⟩)).1
        = dictErase oid (dictInsert oid (fid, pu) mappings) := by
      rw [delete_object_status_mappings oid _ fid pu 200
        (dictLookup_insert oid (fid, pu) mappings)]
      simp
    rw [h2]
    simp [get_object, dictLookup_erase]

/-- Witness for C4 at concrete inputs: a 202 DELETE keeps the one-entry
mapping, a 204 DELETE erases it, and PUT then DELETE(200) then GET on `obj`
ends in the unknown-object failure. -/
theorem C4_delete_mapping_witness :
    (delete_object "obj" [("obj", "f1", "pu1")] (NetResult.ok ⟨202⟩)).1
        = [("obj", "f1", "pu1")] ∧
    (delete_object "obj" [("obj", "f1", "pu1")] (NetResult.ok ⟨204⟩)).1
        = dictErase "obj" [("obj", "f1", "pu1")] ∧
    get_object "obj"
        (delete_object "obj"
          (put_object "http://m:9333" "obj" 10 [] [("obj", "./temp/obj")]
            (fun _ => true) (NetResult.ok ⟨some "pu1", some "f1"⟩)
            (NetResult.ok ⟨201, true⟩) 0 1).mappings
          (NetResult.ok ⟨200⟩)).1
        none none NetResult.raised 0 0
      = ([], [LogRec.logError "get-no-mapping"], none) := by
  refine ⟨?_, ?_, ?_⟩
  · rw [C4_delete_mapping.1 "obj" [("obj", "f1", "pu1")] "f1" "pu1" 202
      (by decide)]
    decide
  · rw [C4_delete_mapping.1 "obj" [("obj", "f1", "pu1")] "f1" "pu1" 204
      (by decide)]
    decide
  · exact C4_delete_mapping.2.2 "http://m:9333" "obj" 10 [] [("obj", "./temp/obj")]
      (fun _ => true) "pu1" "f1" "./temp/obj" 0 1 none none NetResult.raised
      0 0 (by decide) rfl (by decide) (by decide)

/-- C5: the mapping keeps at most one Placement per object_id (its key list
stays duplicate-free through any PUT), and a second successful PUT for the
same object_id overwrites the stored Placement (last-writer-wins) while
leaving every other object_id's Placement unchanged. -/
theorem C5_placement_unique :
    (∀ (masterAddr oid : String) (size : Nat)
      (mappings : List (String × String × String))
      (prepared : List (String × String)) (fileExists : String → Bool)
      (assignResp : NetResult AssignData) (uploadResp : NetResult UploadResp)
      (startT endT : ℚ),
      (dictKeys mappings).Nodup →
      (dictKeys (put_object masterAddr oid size mappings prepared fileExists
          assignResp uploadResp startT endT).mappings).Nodup) ∧
    (∀ (masterAddr oid : String) (size : Nat)
      (mappings : List (String × String × String))
      (prepared : List (String × String)) (fileExists : String → Bool)
      (pu fid fp : String) (status : Nat) (startT endT : ℚ),
      dictLookup oid prepared = some fp → fileExists fp = true →
      pu ≠ "" → fid ≠ "" →
      dictLookup oid (put_object masterAddr oid size mappings prepared
          fileExists (NetResult.ok ⟨some pu, some fid⟩)
          (NetResult.ok ⟨status, true⟩) startT endT).mappings
        = some (fid, pu)) ∧
    (∀ (masterAddr oid : String) (size : Nat)
      (mappings : List (String × String × String))
      (prepared : List (String × String)) (fileExists : String → Bool)
      (pu fid fp : String) (status : Nat) (startT endT : ℚ),
      dictLookup oid prepared = some fp → fileExists fp = true →
      pu ≠ "" → fid ≠ "" →
      ∀ k, k ≠ oid →
        dictLookup k (put_object masterAddr oid size mappings prepared
            fileExists (NetResult.ok ⟨some pu, some fid⟩)
            (NetResult.ok ⟨status, true⟩) startT endT).mappings
          = dictLookup k mappings) := by
  refine ⟨?_, ?_, ?_⟩
  · intro masterAddr oid size mappings prepared fileExists assignResp
      uploadResp startT endT h
    rcases put_object_mappings_cases masterAddr oid size mappings prepared
      fileExists assignResp uploadResp startT endT with he | ⟨v, he⟩
    · rw [he]; exact h
    · rw [he]; exact dictKeys_insert_nodup oid v mappings h
  · intro masterAddr oid size mappings prepared fileExists pu fid fp status
      startT endT hfp hex hpu hfid
    rw [put_object_success_mappings masterAddr oid size mappings prepared
      fileExists pu fid status true startT endT fp hfp hex hpu hfid]
    simp only [if_true]
    exact dictLookup_insert oid (fid, pu) mappings
  · intro masterAddr oid size mappings prepared fileExists pu fid fp status
      startT endT hfp hex hpu hfid k hk
    rw [put_object_success_mappings masterAddr oid size mappings prepared
      fileExists pu fid status true startT endT fp hfp hex hpu hfid]
    simp only [if_true]
    exact dictLookup_insert_ne oid k (fid, pu) mappings (Ne.symm hk)

/-- Witness for C5 at concrete inputs: two successful PUTs for `obj`; after
the second, `obj` maps to the second assignment and an unrelated key keeps
its Placement. -/
theorem C5_placement_unique_witness :
    dictLookup "obj"
        (put_object "http://m:9333" "obj" 20 [("obj", "f1", "pu1"), ("zzz", "f0", "pu0")]
          [("obj", "./temp/obj")] (fun _ => true)
          (NetResult.ok ⟨some "pu2", some "f2"⟩) (NetResult.ok ⟨201, true⟩)
          0 1).mappings
      = some ("f2", "pu2") ∧
    dictLookup "zzz"
        (put_object "http://m:9333" "obj" 20 [("obj", "f1", "pu1"), ("zzz", "f0", "pu0")]
          [("obj", "./temp/obj")] (fun _ => true)
          (NetResult.ok ⟨some "pu2", some "f2"⟩) (NetResult.ok ⟨201, true⟩)
          0 1).mappings
      = dictLookup "zzz" [("obj", "f1", "pu1"), ("zzz", "f0", "pu0")] :=
  ⟨C5_placement_unique.2.1 "http://m:9333" "obj" 20
      [("obj", "f1", "pu1"), ("zzz", "f0", "pu0")] [("obj", "./temp/obj")]
      (fun _ => true) "pu2" "f2" "./temp/obj" 201 0 1 (by decide) rfl
      (by decide) (by decide),
    C5_placement_unique.2.2 "http://m:9333" "obj" 20
      [("obj", "f1", "pu1"), ("zzz", "f0", "pu0")] [("obj", "./temp/obj")]
      (fun _ => true) "pu2" "f2" "./temp/obj" 201 0 1 (by decide) rfl
      (by decide) (by decide) "zzz" (by decide)⟩

/-- C6 (amended): `put_object` never inspects the upload status code.  With
the staged file present and a well-formed assignment it issues exactly one
upload request (no retry), and it stores the Placement exactly when
`upload_response.json()` parses — for any status, 2xx or not.  When
`.json()` raises, the exception is caught, an error is logged after the
measurement line, and no Placement is stored. -/
theorem C6_put_upload_response :
    (∀ (masterAddr oid : String) (size : Nat)
      (mappings : List (String × String × String))
      (prepared : List (String × String)) (fileExists : String → Bool)
      (pu fid fp : String) (status : Nat) (jsonOk : Bool) (startT endT : ℚ),
      dictLookup oid prepared = some fp → fileExists fp = true →
      pu ≠ "" → fid ≠ "" →
      (put_object masterAddr oid size mappings prepared fileExists
          (NetResult.ok ⟨some pu, some fid⟩) (NetResult.ok ⟨status, jsonOk⟩)
          startT endT).mappings
        = if jsonOk then dictInsert oid (fid, pu) mappings else mappings) ∧
    (∀ (masterAddr oid : String) (size : Nat)
      (mappings : List (String × String × String))
      (prepared : List (String × String)) (fileExists : String → Bool)
      (pu fid fp : String) (status : Nat) (jsonOk : Bool) (startT endT : ℚ),
      dictLookup oid prepared = some fp → fileExists fp = true →
      pu ≠ "" → fid ≠ "" →
      (put_object masterAddr oid size mappings prepared fileExists
          (NetResult.ok ⟨some pu, some fid⟩) (NetResult.ok ⟨status, jsonOk⟩)
          startT endT).requests
        = [HttpReq.assignReq (masterAddr ++ "/dir/assign"),
           HttpReq.postReq ("http://" ++ pu ++ "/" ++ fid)]) ∧
    (∀ (masterAddr oid : String) (size : Nat)
      (mappings : List (String × String × String))
      (prepared : List (String × String)) (fileExists : String → Bool)
      (pu fid fp : String) (status : Nat) (startT endT : ℚ),
      dictLookup oid prepared = some fp → fileExists fp = true →
      pu ≠ "" → fid ≠ "" →
      (put_object masterAddr oid size mappings prepared fileExists
          (NetResult.ok ⟨some pu, some fid⟩) (NetResult.ok ⟨status, false⟩)
          startT endT).logs
        = [LogRec.opLine "PUT" oid size (endT - startT)
            (throughputOf size (endT - startT)),
           LogRec.logError "put-exception"]) := by
  refine ⟨?_, ?_, ?_⟩
  · intro masterAddr oid size mappings prepared fileExists pu fid fp status
      jsonOk startT endT hfp hex hpu hfid
    exact put_object_success_mappings masterAddr oid size mappings prepared
      fileExists pu fid status jsonOk startT endT fp hfp hex hpu hfid
  · intro masterAddr oid size mappings prepared fileExists pu fid fp status
      jsonOk startT endT hfp hex hpu hfid
    simp [put_object, hfp, hex, optFalsy, hpu, hfid]
    cases jsonOk <;> simp
  · intro masterAddr oid size mappings prepared fileExists pu fid fp status
      startT endT hfp hex hpu hfid
    simp [put_object, hfp, hex, optFalsy, hpu, hfid]

/-- Counterexample to C6 as stated: an upload answered with status 500 and a
JSON body still stores a Placement for the object. -/
theorem C6_put_upload_response_counterexample :
    (put_object "http://m:9333" "obj" 10 [] [("obj", "./temp/obj")]
        (fun _ => true) (NetResult.ok ⟨some "pu1", some "f1"⟩)
        (NetResult.ok ⟨500, true⟩) 0 1).mappings
      = [("obj", "f1", "pu1")] := by rfl

/-- Witness for C6 at concrete inputs: with a 500-status upload whose body is
not JSON, no Placement is stored and exactly one upload request was made. -/
theorem C6_put_upload_response_witness :
    ((put_object "http://m:9333" "obj" 10 [] [("obj", "./temp/obj")]
        (fun _ => true) (NetResult.ok ⟨some "pu1", some "f1"⟩)
        (NetResult.ok ⟨500, false⟩) 0 1).mappings
      = if false then dictInsert "obj" ("f1", "pu1") [] else []) ∧
    (put_object "http://m:9333" "obj" 10 [] [("obj", "./temp/obj")]
        (fun _ => true) (NetResult.ok ⟨some "pu1", some "f1"⟩)
        (NetResult.ok ⟨500, false⟩) 0 1).requests
      = [HttpReq.assignReq "http://m:9333/dir/assign",
         HttpReq.postReq "http://pu1/f1"] :=
  ⟨C6_put_upload_response.1 "http://m:9333" "obj" 10 [] [("obj", "./temp/obj")]
      (fun _ => true) "pu1" "f1" "./temp/obj" 500 false 0 1 (by decide) rfl
      (by decide) (by decide),
    C6_put_upload_response.2.1 "http://m:9333" "obj" 10 [] [("obj", "./temp/obj")]
      (fun _ => true) "pu1" "f1" "./temp/obj" 500 false 0 1 (by decide) rfl
      (by decide) (by decide)⟩

/-- C7: the throughput reported by the PUT and GET measurement lines equals
bytes divided by elapsed time when elapsed is positive, and is 0 when elapsed
is not positive (the guarded conditional means the division is never taken
with a non-positive denominator). -/
theorem C7_throughput :
    (∀ (bytes : Nat) (elapsed : ℚ), 0 < elapsed →
        throughputOf bytes elapsed = (bytes : ℚ) / elapsed) ∧
    (∀ (bytes : Nat) (elapsed : ℚ), elapsed ≤ 0 →
        throughputOf bytes elapsed = 0) ∧
    (∀ (masterAddr oid : String) (size : Nat)
      (mappings : List (String × String × String))
      (prepared : List (String × String)) (fileExists : String → Bool)
      (pu fid fp : String) (status : Nat) (jsonOk : Bool) (startT endT : ℚ),
      dictLookup oid prepared = some fp → fileExists fp = true →
      pu ≠ "" → fid ≠ "" →
      (put_object masterAddr oid size mappings prepared fileExists
          (NetResult.ok ⟨some pu, some fid⟩) (NetResult.ok ⟨status, jsonOk⟩)
          startT endT).logs.head?
        = some (LogRec.opLine "PUT" oid size (endT - startT)
            (throughputOf size (endT - startT)))) ∧
    (∀ (oid fid pu : String) (mappings : List (String × String × String))
      (rs re : Option Int) (body : List Nat) (startT endT : ℚ),
      dictLookup oid mappings = some (fid, pu) →
      (get_object oid mappings rs re (NetResult.ok ⟨200, body⟩)
          startT endT).2.1
        = [LogRec.opLine "GET" oid body.length (endT - startT)
            (throughputOf body.length (endT - startT))]) := by
  refine ⟨?_, ?_, ?_, ?_⟩
  · intro bytes elapsed h
    simp [throughputOf, h]
  · intro bytes elapsed h
    simp [throughputOf, not_lt.mpr h]
  · intro masterAddr oid size mappings prepared fileExists pu fid fp status
      jsonOk startT endT hfp hex hpu hfid
    simp [put_object, hfp, hex, optFalsy, hpu, hfid]
    cases jsonOk <;> simp
  · intro oid fid pu mappings rs re body startT endT h
    simp [get_object, h]

/-- Witness for C7 at concrete inputs: 10 bytes in 1 time unit give
throughput 10/1, 10 bytes in 0 time give throughput 0, and the concrete PUT
and GET runs log exactly those measurement lines. -/
theorem C7_throughput_witness :
    throughputOf 10 1 = (10 : ℚ) / 1 ∧
    throughputOf 10 0 = 0 ∧
    (put_object "http://m:9333" "obj" 10 [] [("obj", "./temp/obj")]
        (fun _ => true) (NetResult.ok ⟨some "pu1", some "f1"⟩)
        (NetResult.ok ⟨201, true⟩) 0 1).logs.head?
      = some (LogRec.opLine "PUT" "obj" 10 (1 - 0) (throughputOf 10 (1 - 0))) ∧
    (get_object "obj" [("obj", "f1", "pu1")] none none
        (NetResult.ok ⟨200, [7, 7, 7]⟩) 0 1).2.1
      = [LogRec.opLine "GET" "obj" 3 (1 - 0) (throughputOf 3 (1 - 0))] :=
  ⟨C7_throughput.1 10 1 zero_lt_one,
    C7_throughput.2.1 10 0 (le_refl 0),
    C7_throughput.2.2.1 "http://m:9333" "obj" 10 [] [("obj", "./temp/obj")]
      (fun _ => true) "pu1" "f1" "./temp/obj" 201 true 0 1 (by decide) rfl
      (by decide) (by decide),
    C7_throughput.2.2.2 "obj" "f1" "pu1" [("obj", "f1", "pu1")] none none
      [7, 7, 7] 0 1 (by decide)⟩

/-- C10: the claim says `generate_patterned_content(size_bytes)` always has
length exactly `size_bytes`; the code's own docstring promises the same, but
slicing the 8-byte base pattern for up to 15 remaining bytes loses bytes:
at `size_bytes = 25` the result has only 24 bytes. -/
theorem C10_patterned_length :
    (generate_patterned_content 25).length = 24 ∧ (24 : Nat) ≠ 25 := by
  decide

/-- C1 (amended): a trace line with fewer than 3 whitespace-separated fields
is skipped (a diagnostic is logged) and processing continues with the rest of
the trace; but a line whose integer fields fail to parse is **not** merely
skipped: whichever of them is unparseable — the timestamp, a PUT record's
size field, or a GET record's range bounds — `int(...)` raises an uncaught
`ValueError` that aborts the whole trace-reading loop. -/
theorem C1_trace_reader :
    (∀ (line : String) (c1 c2 : ℚ) (rest : List (String × ℚ × ℚ))
      (st : Option ℚ),
      (pySplit (pyStrip line)).length < 3 →
      execTraceLoop ((line, c1, c2) :: rest) st = execTraceLoop rest st) ∧
    (∀ (line : String) (c1 c2 : ℚ) (rest : List (String × ℚ × ℚ))
      (st : Option ℚ) (t op oid : String) (fs : List String),
      pySplit (pyStrip line) = t :: op :: oid :: fs →
      pyInt t = none →
      execTraceLoop ((line, c1, c2) :: rest) st
        = Except.error "ValueError") ∧
    (∀ (line : String) (c1 c2 : ℚ) (rest : List (String × ℚ × ℚ))
      (st : Option ℚ) (t oid sz : String) (fs2 : List String) (ts : Int),
      pySplit (pyStrip line) = t :: "REST.PUT.OBJECT" :: oid :: sz :: fs2 →
      pyInt t = some ts →
      pyInt sz = none →
      execTraceLoop ((line, c1, c2) :: rest) st
        = Except.error "ValueError") ∧
    (∀ (line : String) (c1 c2 : ℚ) (rest : List (String × ℚ × ℚ))
      (st : Option ℚ) (t oid f1 f2 f3 : String) (fs3 : List String)
      (ts : Int),
      pySplit (pyStrip line)
        = t :: "REST.GET.OBJECT" :: oid :: f1 :: f2 :: f3 :: fs3 →
      pyInt t = some ts →
      pyInt f2 = none ∨ pyInt f3 = none →
      execTraceLoop ((line, c1, c2) :: rest) st
        = Except.error "ValueError") := by
  refine ⟨?_, ?_, ?_, ?_⟩
  · intro line c1 c2 rest st h
    rcases hl : pySplit (pyStrip line) with _ | ⟨a, _ | ⟨b, _ | ⟨c, fs⟩⟩⟩
    · simp [execTraceLoop, hl]
    · simp [execTraceLoop, hl]
    · simp [execTraceLoop, hl]
    · rw [hl] at h
      simp only [List.length_cons] at h
      omega
  · intro line c1 c2 rest st t op oid fs hl hn
    simp [execTraceLoop, hl, hn]
  · intro line c1 c2 rest st t oid sz fs2 ts hl hts hsz
    simp [execTraceLoop, hl, hts, hsz]
  · intro line c1 c2 rest st t oid f1 f2 f3 fs3 ts hl hts hbad
    rcases hbad with hf2 | hf3
    · rcases hf3c : pyInt f3 with _ | b <;>
        simp [execTraceLoop, hl, hts, hf2, hf3c]
    · rcases hf2c : pyInt f2 with _ | a <;>
        simp [execTraceLoop, hl, hts, hf3, hf2c]

/-- Counterexample to C1 as stated: a trace whose first line has a
non-integer timestamp aborts the whole loop with the uncaught `ValueError`
instead of skipping just that record and dispatching the next line. -/
theorem C1_trace_reader_counterexample :
    execTraceLoop [("abc REST.DELETE.OBJECT x", 0, 0),
      ("0 REST.DELETE.OBJECT y", 0, 0)] none = Except.error "ValueError" := by
  rfl

/-- Witness for C1 at concrete inputs: a 1-field line is skipped with
processing continuing; a line with an unparseable timestamp aborts; so does a
PUT line with an unparseable size, and a GET line with an unparseable range
bound. -/
theorem C1_trace_reader_witness :
    execTraceLoop [("tooshort", 0, 0)] none = execTraceLoop [] none ∧
    execTraceLoop [("abc REST.DELETE.OBJECT x", 1, 2)] none
      = Except.error "ValueError" ∧
    execTraceLoop [("5 REST.PUT.OBJECT a bad", 1, 2)] none
      = Except.error "ValueError" ∧
    execTraceLoop [("5 REST.GET.OBJECT a 10 0 xx", 1, 2)] none
      = Except.error "ValueError" :=
  ⟨C1_trace_reader.1 "tooshort" 0 0 [] none (by decide),
    C1_trace_reader.2.1 "abc REST.DELETE.OBJECT x" 1 2 [] none "abc"
      "REST.DELETE.OBJECT" "x" [] (by decide) (by decide),
    C1_trace_reader.2.2.1 "5 REST.PUT.OBJECT a bad" 1 2 [] none "5" "a"
      "bad" [] 5 (by decide) (by decide) (by decide),
    C1_trace_reader.2.2.2 "5 REST.GET.OBJECT a 10 0 xx" 1 2 [] none "5" "a"
      "10" "0" "xx" [] 5 (by decide) (by decide) (Or.inr (by decide))⟩


theorem preCreateScan_lookup (lines : List String) :
    ∀ (acc st : List (String × Int)),
      preCreateScan lines acc = Except.ok st →
      ∀ oid, dictLookup oid st
        = match lastPutSize lines oid with
          | some n => some n
          | none => dictLookup oid acc := by
  induction lines with
  | nil =>
      intro acc st h oid
      simp only [preCreateScan] at h
      cases h
      simp [lastPutSize]
  | cons line rest ih =>
      intro acc st h oid
      simp only [preCreateScan] at h
      rcases hl : pySplit (pyStrip line) with _ | ⟨t, _ | ⟨op, _ | ⟨o, fs⟩⟩⟩ <;>
        rw [hl] at h <;> (try dsimp only at h)
      · have := ih acc st h oid
        simp only [lastPutSize, parsePutRecord, hl]
        cases hr : lastPutSize rest oid <;> rw [hr] at this <;> simpa using this
      · have := ih acc st h oid
        simp only [lastPutSize, parsePutRecord, hl]
        cases hr : lastPutSize rest oid <;> rw [hr] at this <;> simpa using this
      · have := ih acc st h oid
        simp only [lastPutSize, parsePutRecord, hl]
        cases hr : lastPutSize rest oid <;> rw [hr] at this <;> simpa using this
      · rcases fs with _ | ⟨sz, fs2⟩
        · rw [ite_self] at h
          have := ih acc st h oid
          simp only [lastPutSize, parsePutRecord, hl]
          cases hr : lastPutSize rest oid <;> rw [hr] at this <;>
            simpa using this
        · by_cases hop : op = "REST.PUT.OBJECT"
          · rw [if_pos hop] at h
            dsimp only at h
            rcases hz : pyInt sz with _ | n <;> rw [hz] at h
            · cases h
            · have := ih (dictInsert o n acc) st h oid
              simp only [lastPutSize, parsePutRecord, hl, hop, hz,
                Option.map_some]
              cases hr : lastPutSize rest oid <;> rw [hr] at this
              · by_cases ho : o = oid
                · subst ho
                  rw [dictLookup_insert] at this
                  simpa using this
                · rw [dictLookup_insert_ne o oid n acc ho] at this
                  simpa [ho] using this
              · simpa using this
          · rw [if_neg hop] at h
            have := ih acc st h oid
            simp only [lastPutSize, parsePutRecord, hl, hop]
            cases hr : lastPutSize rest oid <;> rw [hr] at this <;>
              simpa [hop] using this

theorem lastPutSize_isSome (lines : List String) (line : String)
    (oid : String) (n : Int) (hmem : line ∈ lines)
    (hp : parsePutRecord line = some (oid, n)) :
    (lastPutSize lines oid).isSome := by
  induction lines with
  | nil => cases hmem
  | cons l rest ih =>
      rcases List.mem_cons.mp hmem with h | h
      · subst h
        simp only [lastPutSize]
        cases hr : lastPutSize rest oid
        · simp [hp]
        · simp
      · have := ih h
        simp only [lastPutSize]
        cases hr : lastPutSize rest oid
        · rw [hr] at this
          simp at this
        · simp

/-- C8 (amended): after `pre_create_put_files` finishes (it runs before
`execute_trace`), every object_id referenced by a size-carrying PUT record of
the trace has a staged payload, and its size is the size of the **last**
size-carrying PUT record for that object_id: an earlier PUT of the same id
with a different size does not get a payload of its own size. -/
theorem C8_payload_staging :
    ∀ (lines : List String) (st : List (String × Int)),
      pre_create_put_files lines = Except.ok st →
      (∀ oid, dictLookup oid st = lastPutSize lines oid) ∧
      (∀ line ∈ lines, ∀ oid n, parsePutRecord line = some (oid, n) →
        (dictLookup oid st).isSome) := by
  intro lines st h
  have hmain : ∀ oid, dictLookup oid st = lastPutSize lines oid := by
    intro oid
    have := preCreateScan_lookup lines [] st h oid
    cases hr : lastPutSize lines oid <;> rw [hr] at this <;>
      simpa [dictLookup] using this
  refine ⟨hmain, ?_⟩
  intro line hmem oid n hp
  rw [hmain oid]
  exact lastPutSize_isSome lines line oid n hmem hp

/-- Counterexample to C8 as stated: the trace holds a PUT of `a` with size 10
followed by a PUT of `a` with size 20; after staging, `a`'s payload has size
20, not "that PUT's size" 10 for the first record. -/
theorem C8_payload_staging_counterexample :
    parsePutRecord "0 REST.PUT.OBJECT a 10" = some ("a", (10 : Int)) ∧
    pre_create_put_files ["0 REST.PUT.OBJECT a 10", "1 REST.PUT.OBJECT a 20"]
      = Except.ok [("a", (20 : Int))] ∧
    dictLookup "a" [("a", (20 : Int))] ≠ some (10 : Int) := by
  decide

/-- Witness for C8 at a concrete input: a one-PUT trace stages `a` with the
(only, hence last) recorded size. -/
theorem C8_payload_staging_witness :
    dictLookup "a" [("a", (10 : Int))]
        = lastPutSize ["0 REST.PUT.OBJECT a 10"] "a" ∧
    (dictLookup "a" [("a", (10 : Int))]).isSome := by
  have h := C8_payload_staging ["0 REST.PUT.OBJECT a 10"] [("a", (10 : Int))]
    (by decide)
  exact ⟨h.1 "a", h.2 "0 REST.PUT.OBJECT a 10" (by decide) "a" 10 (by decide)⟩

/-! ### Byte-range semantics (C9) -/

/-- The spec's reading of a byte range `(s, e)`: the slice of the payload
from offset `s` through offset `e` **inclusive**. -/
def inclusiveSlice (c : List Nat) (s e : Nat) : List Nat :=
  (c.drop s).take (e + 1 - s)

theorem list_drop_min {α : Type} (l : List α) (s : Nat) :
    l.drop (min s l.length) = l.drop s := by
  rcases Nat.le_total s l.length with h | h
  · rw [Nat.min_eq_left h]
  · rw [Nat.min_eq_right h, List.drop_eq_nil_of_le (le_refl _),
      List.drop_eq_nil_of_le h]

theorem pySlice_natCast (c : List Nat) (s e : Nat) :
    pySlice c (s : Int) ((e : Int) + 1) = inclusiveSlice c s e := by
  unfold pySlice pySliceIdx inclusiveSlice
  have hs : ¬((s : Int) < 0) := not_lt.mpr (Int.natCast_nonneg s)
  have he : ¬((e : Int) + 1 < 0) := by
    apply not_lt.mpr
    have := Int.natCast_nonneg e
    omega
  rw [if_neg hs, if_neg he]
  have h1 : ((e : Int) + 1).toNat = e + 1 := by omega
  have h2 : ((s : Int)).toNat = s := by omega
  rw [h1, h2, List.drop_take, list_drop_min]
  apply List.take_eq_take.mpr
  simp only [List.length_drop]
  omega

/-- C9: a GET record with both range fields issues the HTTP request with
header `Range: bytes=<start>-<end>`; in verification mode the received body
is compared byte-for-byte with `original_content[range_start:range_end+1]`,
which is exactly the slice from offset `start` through offset `end`
inclusive; in particular range `(0, 511)` is checked against exactly the
first 512 bytes of the original payload. -/
theorem C9_range_get :
    (∀ (oid : String) (mappings : List (String × TestMapping))
      (m : TestMapping) (si ei : Int) (body : List Nat) (status : Nat),
      dictLookup oid mappings = some m →
      status = 200 ∨ status = 206 →
      get_object_test oid mappings (some si) (some ei)
          (NetResult.ok ⟨status, body⟩)
        = (GetOutcomeT.verifiedRange (pySlice m.content si (ei + 1))
            (verify_content (pySlice m.content si (ei + 1)) body),
           [HttpReq.getReq ("http://" ++ m.public_url ++ "/" ++ m.fid)
             [("Range", "bytes=" ++ toString si ++ "-" ++ toString ei)]])) ∧
    (∀ (c : List Nat) (s e : Nat),
      pySlice c (s : Int) ((e : Int) + 1) = inclusiveSlice c s e) ∧
    (∀ (c : List Nat), inclusiveSlice c 0 511 = c.take 512) ∧
    (∀ (a b : List Nat), verify_content a b = true ↔ a = b) := by
  refine ⟨?_, pySlice_natCast, ?_, ?_⟩
  · intro oid mappings m si ei body status h hst
    rcases hst with rfl | rfl <;>
      simp [get_object_test, h, getHeaders]
  · intro c
    simp [inclusiveSlice]
  · intro a b
    simp [verify_content]

/-- Witness for C9 at a concrete input: the 1024-byte patterned payload,
fetched with range `(0, 511)` answered by 206 with the first 512 bytes. -/
theorem C9_range_get_witness :
    get_object_test "obj"
        [("obj", ⟨"f1", "pu1", generate_patterned_content 1024, 1024⟩)]
        (some 0) (some 511)
        (NetResult.ok ⟨206, (generate_patterned_content 1024).take 512⟩)
      = (GetOutcomeT.verifiedRange
          (pySlice (generate_patterned_content 1024) 0 (511 + 1))
          (verify_content (pySlice (generate_patterned_content 1024) 0 (511 + 1))
            ((generate_patterned_content 1024).take 512)),
         [HttpReq.getReq ("http://" ++ "pu1" ++ "/" ++ "f1")
           [("Range", "bytes=" ++ toString (0 : Int) ++ "-"
              ++ toString (511 : Int))]]) :=
  C9_range_get.1 "obj"
    [("obj", ⟨"f1", "pu1", generate_patterned_content 1024, 1024⟩)]
    ⟨"f1", "pu1", generate_patterned_content 1024, 1024⟩ 0 511
    ((generate_patterned_content 1024).take 512) 206 rfl (Or.inr rfl)

theorem execTraceLoop_order (lines : List (String × ℚ × ℚ)) :
    ∀ (st : Option ℚ) (out : List (ℚ × Dispatch)),
      execTraceLoop lines st = Except.ok out →
      out.map Prod.snd = recordsOf (lines.map (fun p => p.1)) := by
  induction lines with
  | nil =>
      intro st out h
      simp only [execTraceLoop] at h
      cases h
      simp [recordsOf]
  | cons lcc rest ih =>
      rcases lcc with ⟨line, c1, c2⟩
      intro st out h
      simp only [execTraceLoop] at h
      rcases hl : pySplit (pyStrip line) with _ | ⟨t, _ | ⟨op, _ | ⟨oid, fs⟩⟩⟩ <;>
        rw [hl] at h <;> (try dsimp only at h)
      · simp only [List.map_cons, recordsOf, hl]
        exact ih st out h
      · simp only [List.map_cons, recordsOf, hl]
        exact ih st out h
      · simp only [List.map_cons, recordsOf, hl]
        exact ih st out h
      · rcases ht : pyInt t with _ | ts <;> rw [ht] at h
        · cases h
        · dsimp only at h
          simp only [List.map_cons, recordsOf, hl]
          by_cases hput : op = "REST.PUT.OBJECT"
          · rw [if_pos hput] at h
            rw [if_pos hput]
            rcases fs with _ | ⟨sz, fs2⟩
            · dsimp only at h ⊢
              exact ih _ out h
            · dsimp only at h ⊢
              rcases hz : pyInt sz with _ | n <;> rw [hz] at h <;>
                (try dsimp only at h ⊢)
              · cases h
              · rcases hr : execTraceLoop rest
                    (some (schedOrigin st c1 (ts : ℚ))) with e | out2 <;>
                  rw [hr] at h <;> dsimp only at h
                · cases h
                · cases h
                  simp only [List.map_cons]
                  rw [ih _ out2 hr]
          · rw [if_neg hput] at h
            rw [if_neg hput]
            by_cases hget : op = "REST.GET.OBJECT"
            · rw [if_pos hget] at h
              rw [if_pos hget]
              rcases fs with _ | ⟨f1, _ | ⟨f2, _ | ⟨f3, fs3⟩⟩⟩ <;>
                dsimp only at h ⊢
              · rcases hr : execTraceLoop rest
                    (some (schedOrigin st c1 (ts : ℚ))) with e | out2 <;>
                  rw [hr] at h <;> dsimp only at h
                · cases h
                · cases h
                  simp only [List.map_cons]
                  rw [ih _ out2 hr]
              · rcases hr : execTraceLoop rest
                    (some (schedOrigin st c1 (ts : ℚ))) with e | out2 <;>
                  rw [hr] at h <;> dsimp only at h
                · cases h
                · cases h
                  simp only [List.map_cons]
                  rw [ih _ out2 hr]
              · rcases hr : execTraceLoop rest
                    (some (schedOrigin st c1 (ts : ℚ))) with e | out2 <;>
                  rw [hr] at h <;> dsimp only at h
                · cases h
                · cases h
                  simp only [List.map_cons]
                  rw [ih _ out2 hr]
              · rcases ha : pyInt f2 with _ | a <;> rw [ha] at h <;>
                  (try dsimp only at h ⊢)
                · cases h
                · rcases hb : pyInt f3 with _ | b <;> rw [hb] at h <;>
                    (try dsimp only at h ⊢)
                  · cases h
                  · rcases hr : execTraceLoop rest
                        (some (schedOrigin st c1 (ts : ℚ))) with e | out2 <;>
                      rw [hr] at h <;> dsimp only at h
                    · cases h
                    · cases h
                      simp only [List.map_cons]
                      rw [ih _ out2 hr]
            · rw [if_neg hget] at h
              rw [if_neg hget]
              by_cases hdel : op = "REST.DELETE.OBJECT"
              · rw [if_pos hdel] at h
                rw [if_pos hdel]
                rcases hr : execTraceLoop rest
                    (some (schedOrigin st c1 (ts : ℚ))) with e | out2 <;>
                  rw [hr] at h <;> dsimp only at h
                · cases h
                · cases h
                  simp only [List.map_cons]
                  rw [ih _ out2 hr]
              · rw [if_neg hdel] at h
                rw [if_neg hdel]
                exact ih _ out h

/-- C2: on the first record the replay scheduler fixes an origin satisfying
`origin + timestamp_ms = now`; every computed wait is
`max(0, (origin + timestamp_ms - now) / 1000)`, hence never negative, and it
is exactly zero when the target instant has already passed; and the
dispatched operations of a completed run are precisely the trace's records in
trace order (no reordering, no duplication). -/
theorem C2_replay_scheduler :
    (∀ c1 ts : ℚ, schedOrigin none c1 ts + ts = c1) ∧
    (∀ st ts c2 : ℚ, 0 ≤ schedWait st ts c2) ∧
    (∀ st ts c2 : ℚ, st + ts ≤ c2 → schedWait st ts c2 = 0) ∧
    (∀ (lines : List (String × ℚ × ℚ)) (st : Option ℚ)
      (out : List (ℚ × Dispatch)),
      execTraceLoop lines st = Except.ok out →
      out.map Prod.snd = recordsOf (lines.map (fun p => p.1))) := by
  refine ⟨?_, ?_, ?_, fun lines => execTraceLoop_order lines⟩
  · intro c1 ts
    simp [schedOrigin]
  · intro st ts c2
    unfold schedWait pyMax
    split_ifs with h
    · exact le_refl 0
    · exact le_of_lt (not_le.mp h)
  · intro st ts c2 h
    unfold schedWait pyMax
    rw [if_pos]
    exact div_nonpos_of_nonpos_of_nonneg (by linarith) (by norm_num)

/-- Witness for C2 at concrete inputs: the origin equation at `now = 5`,
`timestamp = 3`; nonnegativity and the zero clamp of a concrete wait; and the
dispatch list of a one-line trace replay. -/
theorem C2_replay_scheduler_witness :
    schedOrigin none 5 3 + 3 = 5 ∧
    0 ≤ schedWait 0 0 0 ∧
    schedWait 0 0 1 = 0 ∧
    ([(schedWait (schedOrigin none 5 ((0 : Int) : ℚ)) ((0 : Int) : ℚ) 7,
        Dispatch.delOp "y")].map Prod.snd)
      = recordsOf (([("0 REST.DELETE.OBJECT y", (5 : ℚ), (7 : ℚ))]).map
          (fun p => p.1)) :=
  ⟨C2_replay_scheduler.1 5 3,
    C2_replay_scheduler.2.1 0 0 0,
    C2_replay_scheduler.2.2.1 0 0 1 (by simp),
    C2_replay_scheduler.2.2.2 [("0 REST.DELETE.OBJECT y", 5, 7)] none
      [(schedWait (schedOrigin none 5 ((0 : Int) : ℚ)) ((0 : Int) : ℚ) 7,
        Dispatch.delOp "y")] rfl⟩
